import Mathlib

/-!
Verification model of the hydra-slurm-launcher plugin.

Shallow embedding of `src/hydra_plugins/hydra_slurm_launcher/config.py`
and `src/hydra_plugins/hydra_slurm_launcher/_core.py`.  Python values
that can appear in the SLURM parameter dictionary are modelled by
`PyVal`; the scheduler subprocess boundary is modelled by `RunResult`
(the operating-system level outcome of the `sbatch` invocation), with
`subprocess_run_check` reproducing `subprocess.run(..., check=True)`
semantics: a non-zero exit raises `CalledProcessError`, an absent
binary raises `FileNotFoundError`.
-/

namespace SlurmModel

/-- `hydra.core.utils.JobStatus` (the two values this plugin uses, plus
the dataclass default `UNKNOWN`). -/
inductive JobStatus where
  | UNKNOWN
  | COMPLETED
  | FAILED
  deriving DecidableEq, Repr

/-- `hydra.core.utils.JobReturn`, restricted to the two fields this
plugin sets.  `returnValue = none` models Python `return_value = None`;
`returnValue = some o` models the dict `\x7b"job_id": o\x7d` where `o`
is the optional job-id string. -/
structure JobReturn where
  status : JobStatus := JobStatus.UNKNOWN
  returnValue : Option (Option String) := none
  deriving DecidableEq, Repr

/-- A Python value that can occur in the SLURM parameter dict built by
the script generators: `None`, a bool, an int, a str, the `additional`
dict of strings, or the `setup` list of strings. -/
inductive PyVal where
  | vNone
  | vBool (b : Bool)
  | vInt (n : Int)
  | vStr (s : String)
  | vDict (d : List (String × String))
  | vList (l : List String)
  deriving DecidableEq, Repr

/-- Python truthiness of the filter `v is not None` used by the
parameter-dict comprehensions (it admits `False`, `0` and `""`). -/
def pyIsNotNone : PyVal → Bool
  | PyVal.vNone => false
  | _ => true

/-- Python `str(value)` for the values that can reach
`as_sbatch_flag` (bools are intercepted before `str` is applied). -/
def pyStr : PyVal → String
  | PyVal.vNone => "None"
  | PyVal.vBool b => if b then "True" else "False"
  | PyVal.vInt n => toString n
  | PyVal.vStr s => s
  | PyVal.vDict d =>
      "\x7b" ++ String.intercalate ", "
        (d.map (fun kv => "\x27" ++ kv.1 ++ "\x27: \x27" ++ kv.2 ++ "\x27")) ++ "\x7d"
  | PyVal.vList l =>
      "[" ++ String.intercalate ", " (l.map (fun s => "\x27" ++ s ++ "\x27")) ++ "]"

/-- The character class Python's `shlex.quote` treats as safe: ASCII
word characters plus `@ % + = : , .` and the slash and hyphen (the
complement of its `_find_unsafe` regex under `re.ASCII`). -/
def shlexSafe (c : Char) : Bool :=
  c.isAlphanum || c = '_' || c = '@' || c = '%' || c = '+' || c = '='
    || c = ':' || c = ',' || c = '.' || c = '/' || c = '-'

/-- Split a character list at every character satisfying `p`, keeping
empty pieces (the semantics of splitting a string at a one-character
separator). -/
def charSplit (p : Char → Bool) : List Char → List (List Char)
  | [] => [[]]
  | c :: rest =>
      let r := charSplit p rest
      if p c then [] :: r
      else
        match r with
        | [] => [[c]]
        | t :: ts => (c :: t) :: ts

/-- Replace every occurrence of the character `a` in `s` by the
character `b` (Python `s.replace(a, b)` for one-character operands). -/
def pyReplaceChar (s : String) (a b : Char) : String :=
  (s.toList.map (fun ch => if ch = a then b else ch)).asString

/-- Replace every occurrence of the character `a` in `s` by the string
`r` (Python `s.replace(a, r)` for a one-character pattern). -/
def pyReplaceCharStr (s : String) (a : Char) (r : String) : String :=
  ((s.toList.map (fun ch => if ch = a then r.toList else [ch])).flatten).asString

/-- Python `shlex.quote`: empty strings become `''`; strings of safe
characters pass through; anything else is wrapped in single quotes with
embedded single quotes escaped. -/
def shlexQuote (s : String) : String :=
  if s = "" then "\x27\x27"
  else if s.toList.all shlexSafe then s
  else "\x27" ++ pyReplaceCharStr s '\x27' "\x27\"\x27\"\x27" ++ "\x27"

/-- `_core.as_sbatch_flag`: underscores in the key become hyphens; a
bool renders as a bare presence flag; any other value renders as
`--key=value` with the value shell-quoted. -/
def as_sbatch_flag (key : String) (value : PyVal) : String :=
  let key := pyReplaceChar key '_' '-'
  match value with
  | PyVal.vBool _ => "#SBATCH --" ++ key
  | v => "#SBATCH --" ++ key ++ "=" ++ shlexQuote (pyStr v)

/-- Python `str.split()` with no separator: split on whitespace runs,
dropping empty pieces. -/
def pySplitWs (s : String) : List String :=
  ((charSplit Char.isWhitespace s.toList).map List.asString).filter
    (fun t => t ≠ "")

/-- Python `str.strip()`: drop whitespace from both ends. -/
def pyStrip (s : String) : String :=
  (((s.toList.dropWhile Char.isWhitespace).reverse.dropWhile
      Char.isWhitespace).reverse).asString

/-- Substring containment on character lists. -/
def containsSub (sub : List Char) : List Char → Bool
  | [] => sub.isEmpty
  | c :: rest => sub.isPrefixOf (c :: rest) || containsSub sub rest

/-- Python `sub in s`. -/
def pyIn (sub s : String) : Bool :=
  containsSub sub.toList s.toList

/-- Python `str.splitlines` for `\n`-separated text (the only separator
the scheduler's stdout uses): split on `\n` and drop the final empty
piece produced by a trailing newline. -/
def pySplitlines (s : String) : List String :=
  if s = "" then []
  else
    let parts := (charSplit (fun c => c = '\n') s.toList).map List.asString
    if parts.getLast? = some "" then parts.dropLast else parts

/-- The job-id scan shared by `submit_job` and `submit_job_array`
(`_core.py` lines 33-36 and 117-120): for each stdout line containing
`"Submitted batch job"`, take the last whitespace-delimited token of
the stripped line; the last matching line wins.  (`split()[-1]` in the
source is total here because a matching line contains non-whitespace.) -/
def extract_job_id (stdout : String) : Option String :=
  (pySplitlines stdout).foldl
    (fun acc line =>
      if pyIn "Submitted batch job" line then (pySplitWs (pyStrip line)).getLast?
      else acc)
    none

/-- `hydra.core.utils.filter_overrides` (external collaborator): drop
overrides addressed to hydra itself. -/
def filter_overrides (overrides : List String) : List String :=
  overrides.filter (fun s => ¬ ("hydra.".toList.isPrefixOf s.toList))

/-- `config.SlurmQueueConf` (the dataclass fields, in declaration
order; `_target_` is rendered as `target`). -/
structure SlurmQueueConf where
  target : String := "hydra_plugins.hydra_slurm_launcher.slurmlauncher.SlurmLauncher"
  partition : String := "default"
  job_name : Option String := none
  job_array_name : Option String := none
  nodes : Option Int := none
  ntasks : Option Int := none
  ntasks_per_node : Option Int := none
  cpus_per_task : Option Int := none
  mem : Option String := none
  time : Option String := none
  gres : Option String := none
  gpus : Option Int := none
  account : Option String := none
  qos : Option String := none
  begin_ : Option String := none
  mail_type : Option String := none
  mail_user : Option String := none
  additional : List (String × String) := []
  setup : List String := []
  deriving DecidableEq, Repr

/-- Lift an optional string field to its `PyVal`. -/
def optStr : Option String → PyVal
  | none => PyVal.vNone
  | some s => PyVal.vStr s

/-- Lift an optional int field to its `PyVal`. -/
def optInt : Option Int → PyVal
  | none => PyVal.vNone
  | some n => PyVal.vInt n

/-- `vars(config).items()` in dataclass field order. -/
def varsConf (c : SlurmQueueConf) : List (String × PyVal) :=
  [("_target_", PyVal.vStr c.target),
   ("partition", PyVal.vStr c.partition),
   ("job_name", optStr c.job_name),
   ("job_array_name", optStr c.job_array_name),
   ("nodes", optInt c.nodes),
   ("ntasks", optInt c.ntasks),
   ("ntasks_per_node", optInt c.ntasks_per_node),
   ("cpus_per_task", optInt c.cpus_per_task),
   ("mem", optStr c.mem),
   ("time", optStr c.time),
   ("gres", optStr c.gres),
   ("gpus", optInt c.gpus),
   ("account", optStr c.account),
   ("qos", optStr c.qos),
   ("begin", optStr c.begin_),
   ("mail_type", optStr c.mail_type),
   ("mail_user", optStr c.mail_user),
   ("additional", PyVal.vDict c.additional),
   ("setup", PyVal.vList c.setup)]

/-- `SlurmQueueConf.__post_init__` (`config.py` lines 44-52): reject
`gpus` together with `gres`; expand `gpus` into `gres = "gpu:<n>"`;
reject `job_name` together with `job_array_name`.  An `Except.error`
models the raised `ValueError`. -/
def post_init (c : SlurmQueueConf) : Except String SlurmQueueConf :=
  if c.gpus.isSome ∧ c.gres.isSome then
    Except.error "Cannot specify both \x27gpus\x27 and \x27gres\x27"
  else
    let c := match c.gpus with
      | some n => { c with gres := some ("gpu:" ++ toString n) }
      | none => c
    if c.job_name.isSome ∧ c.job_array_name.isSome then
      Except.error "Cannot specify both \x27job_name\x27 and \x27job_array_name\x27"
    else
      Except.ok c

/-- Python `dict.update` with a single key/value pair: an existing key
keeps its position and takes the new value; a new key is appended. -/
def dictUpdate (d : List (String × PyVal)) (kv : String × PyVal) : List (String × PyVal) :=
  if kv.1 ∈ d.map Prod.fst then
    d.map (fun p => if p.1 = kv.1 then (p.1, kv.2) else p)
  else d ++ [kv]

/-- Python `dict.update` with a whole dict (left to right). -/
def dictUpdateMany (d upd : List (String × PyVal)) : List (String × PyVal) :=
  upd.foldl dictUpdate d

/-- Python `zip` over three lists: truncates to the shortest. -/
def zip3 : List α → List β → List γ → List (α × β × γ)
  | a :: as, b :: bs, c :: cs => (a, b, c) :: zip3 as bs cs
  | _, _, _ => []

/-- The exceptions the `sbatch` subprocess boundary can raise. -/
inductive ProcError where
  | calledProcessError
  | fileNotFoundError
  deriving DecidableEq, Repr

/-- The operating-system level outcome of invoking `sbatch`: the
process ran and exited with a return code and captured stdout, or the
binary was absent. -/
inductive RunResult where
  | ran (returncode : Int) (stdout : String)
  | notFound
  deriving DecidableEq, Repr

/-- `subprocess.CompletedProcess`, restricted to the fields used. -/
structure CompletedProcess where
  returncode : Int
  stdout : String
  deriving DecidableEq, Repr

/-- `subprocess.run(["sbatch", script], check=True, stdout=PIPE)`:
with `check=True` a non-zero exit raises `CalledProcessError`; an
absent binary raises `FileNotFoundError`. -/
def subprocess_run_check : RunResult → Except ProcError CompletedProcess
  | RunResult.ran rc out =>
      if rc ≠ 0 then Except.error ProcError.calledProcessError
      else Except.ok { returncode := rc, stdout := out }
  | RunResult.notFound => Except.error ProcError.fileNotFoundError

/-- `_core.build_command`; `argv0` stands for
`to_absolute_path(sys.argv[0])`. -/
def build_command (overrides : List String) (argv0 : String) : String :=
  let overrides := filter_overrides overrides
  let command := "python " ++ argv0 ++ " hydra.launcher=basic"
  if overrides ≠ [] then command ++ " " ++ String.intercalate " " overrides
  else command

/-- Result of `_core.generate_slurm_script`: the script text (as
lines), the returned script path, and the caller's config object as it
stands after the call (the source mutates `config.job_name` and
restores it before returning). -/
structure SingleScript where
  lines : List String
  scriptPath : String
  config : SlurmQueueConf
  deriving DecidableEq, Repr

/-- `_core.generate_slurm_script` (lines 248-290).  The file write is
not modelled; the script text, returned path and the net effect on the
caller's config are. -/
def generate_slurm_script (config0 : SlurmQueueConf)
    (job_name output_dir command : String) : SingleScript :=
  let non_slurm := ["additional", "setup", "_target_", "job_array_name"]
  let original_config_job_name := config0.job_name
  let config := if config0.job_name.isNone then
      { config0 with job_name := some job_name }
    else config0
  -- at this point `config.job_name` is exactly `some cjn`:
  let cjn := config0.job_name.getD job_name
  let paths : List (String × PyVal) :=
    [("output", PyVal.vStr (output_dir ++ "/" ++ cjn ++ "_%j.out")),
     ("error", PyVal.vStr (output_dir ++ "/" ++ cjn ++ "_%j.err"))]
  let params := (varsConf config).filter
    (fun kv => pyIsNotNone kv.2 && decide (kv.1 ∉ non_slurm))
  let params := dictUpdateMany params paths
  let params := if config.additional ≠ [] then
      dictUpdateMany params (config.additional.map (fun kv => (kv.1, PyVal.vStr kv.2)))
    else params
  let lines := ["#!/bin/bash", " ", "# SLURM parameters"]
    ++ params.map (fun kv => as_sbatch_flag kv.1 kv.2)
  let lines := if config.setup ≠ [] then
      lines ++ [" ", "# Setup commands"] ++ config.setup
    else lines
  let lines := lines ++ [" ", "# Run the command", command]
  { lines := lines,
    scriptPath := output_dir ++ "/" ++ job_name ++ ".sh",
    config := { config with job_name := original_config_job_name } }

/-- The filtered-and-updated SLURM parameter dict of
`_core.generate_array_script` (lines 162-180): drop `None` values and
non-SLURM keys, inject the `array` range, then apply `additional`.
`array_size - 1` is computed in `Int` as in Python. -/
def arrayParams (config : SlurmQueueConf) (array_size : Nat) :
    List (String × PyVal) :=
  let non_slurm := ["additional", "setup", "_target_", "job_name", "job_array_name"]
  let paths : List (String × PyVal) :=
    [("array", PyVal.vStr ("0-" ++ toString ((array_size : Int) - 1)))]
  let params := (varsConf config).filter
    (fun kv => pyIsNotNone kv.2 && decide (kv.1 ∉ non_slurm))
  let params := dictUpdateMany params paths
  if config.additional ≠ [] then
    dictUpdateMany params (config.additional.map (fun kv => (kv.1, PyVal.vStr kv.2)))
  else params

/-- `_core.generate_array_script` (lines 142-245): the script text (as
lines) and the returned script path. -/
def generate_array_script (config : SlurmQueueConf) (array_name : String)
    (array_size : Nat) (config_file sweep_dir argv0 : String) :
    List String × String :=
  let params := arrayParams config array_size
  let lines := ["#!/bin/bash", " ", "# SLURM parameters"]
  let lines := lines ++ ["#SBATCH --job-name=" ++ array_name]
  -- Explicitly tell SLURM to discard its own output files
  let lines := lines ++ ["#SBATCH --output=/dev/null", "#SBATCH --error=/dev/null"]
  let lines := lines
    ++ (params.filter (fun kv => decide (kv.1 ∉ ["output", "error"]))).map
      (fun kv => as_sbatch_flag kv.1 kv.2)
  let lines := lines ++
    [" ",
     "# Get task-specific configuration",
     "CONFIG=$(python -c \"import json; import os; import sys; f=open(\x27"
       ++ config_file
       ++ "\x27); configs=json.load(f); task_id=int(os.environ[\x27SLURM_ARRAY_TASK_ID\x27]); print(json.dumps(configs[task_id])) if 0 <= task_id < len(configs) else sys.exit(1)\")",
     " ",
     "if [ $? -ne 0 ]; then",
     "    echo \"Error: Could not retrieve configuration for task $SLURM_ARRAY_TASK_ID\"",
     "    exit 1",
     "fi",
     " ",
     "# Extract task-specific information",
     "OVERRIDES=$(echo $CONFIG | python -c \"import json; import sys; print(json.loads(sys.stdin.read())[\x27overrides\x27])\")",
     "JOB_NAME=$(echo $CONFIG | python -c \"import json; import sys; print(json.loads(sys.stdin.read())[\x27job_name\x27])\")",
     "OUTPUT_DIR=$(echo $CONFIG | python -c \"import json; import sys; print(json.loads(sys.stdin.read())[\x27output_dir\x27])\")",
     " ",
     "# Create output directory if it doesn\x27t exist",
     "mkdir -p \"$OUTPUT_DIR\"",
     " ",
     "# Redirect all output to the job-specific files",
     "exec > \"$OUTPUT_DIR/${JOB_NAME}_${SLURM_ARRAY_JOB_ID}_${SLURM_ARRAY_TASK_ID}.out\"",
     "exec 2> \"$OUTPUT_DIR/${JOB_NAME}_${SLURM_ARRAY_JOB_ID}_${SLURM_ARRAY_TASK_ID}.err\"",
     " "]
  let lines := if config.setup ≠ [] then
      lines ++ [" ", "# Setup commands"] ++ config.setup
    else lines
  let lines := lines ++
    [" ", "# Run the command",
     "python " ++ argv0 ++ " hydra.launcher=basic $OVERRIDES"]
  (lines, sweep_dir ++ "/" ++ array_name ++ "_array.sh")

/-- `_core.submit_job` (lines 17-43).  Note: `check=True` on the
`subprocess.run` call means a non-zero exit raises before the
`returncode` test, so the `else` branch producing a FAILED return is
unreachable; it is nevertheless translated as written. -/
def submit_job (config : SlurmQueueConf) (overrides : List String)
    (job_name output_dir argv0 : String) (r : RunResult) :
    Except ProcError JobReturn :=
  let cmd := build_command overrides argv0
  let _script := generate_slurm_script config job_name output_dir cmd
  match subprocess_run_check r with
  | Except.error e => Except.error e
  | Except.ok submitted =>
    if submitted.returncode = 0 then
      let job_id := extract_job_id submitted.stdout
      Except.ok { status := JobStatus.COMPLETED,
                  returnValue := match job_id with
                    | some j => if j = "" then none else some (some j)
                    | none => none }
    else
      Except.ok { status := JobStatus.FAILED, returnValue := none }

/-- One record of the array-config JSON file (`_core.py` lines 79-89). -/
structure TaskRecord where
  overrides : String
  job_name : String
  output_dir : String
  task_id : Nat
  deriving DecidableEq, Repr

deriving instance DecidableEq for Except

/-- Everything observable about one `submit_job_array` call: the
descriptor records written to the store file, the generated script, and
the returned value (`Except.error` models an uncaught exception
propagating to the caller). -/
structure ArraySubmitResult where
  configData : List TaskRecord
  scriptLines : List String
  scriptPath : String
  result : Except ProcError (List JobReturn)
  deriving DecidableEq, Repr

/-- `_core.submit_job_array` (lines 46-139).  The `try` block catches
only `subprocess.CalledProcessError`; any other exception from the
`sbatch` invocation propagates. -/
def submit_job_array (config : SlurmQueueConf)
    (all_overrides : List (List String)) (job_names output_dirs : List String)
    (sweep_dir argv0 : String) (r : RunResult) : ArraySubmitResult :=
  -- f-string of an Optional renders None as "None"
  let array_name := match config.job_array_name with
    | some s => s
    | none => "None"
  let array_config_file := sweep_dir ++ "/" ++ array_name ++ "_array_config.json"
  let config_data : List TaskRecord :=
    (zip3 all_overrides job_names output_dirs).enum.map
      (fun p =>
        { overrides := String.intercalate " " (filter_overrides p.2.1),
          job_name := p.2.2.1,
          output_dir := p.2.2.2,
          task_id := p.1 })
  let array_size := all_overrides.length
  let scr := generate_array_script config array_name array_size
    array_config_file sweep_dir argv0
  let result := match subprocess_run_check r with
    | Except.ok submitted =>
        let array_job_id := extract_job_id submitted.stdout
        Except.ok ((List.range array_size).map (fun i =>
          { status := JobStatus.COMPLETED,
            returnValue := some (match array_job_id with
              | some j => if j = "" then none else some (j ++ "_" ++ toString i)
              | none => none) }))
    | Except.error ProcError.calledProcessError =>
        -- In case of failure, return failed status for all jobs
        Except.ok (List.replicate array_size
          { status := JobStatus.FAILED, returnValue := none })
    | Except.error e => Except.error e
  { configData := config_data,
    scriptLines := scr.1,
    scriptPath := scr.2,
    result := result }

/-- Fixture: a configuration using the array path, as the launcher
builds it (`job_array_name` set, everything else defaulted). -/
def confArr : SlurmQueueConf := { job_array_name := some "arr" }

/-- Fixture: the all-default configuration. -/
def confDefault : SlurmQueueConf := {}

/-! ### Helper lemmas -/

theorem zip3_length (a : List α) (b : List β) (c : List γ) :
    (zip3 a b c).length = min a.length (min b.length c.length) := by
  induction a generalizing b c with
  | nil => cases b <;> cases c <;> simp [zip3]
  | cons x xs ih =>
    cases b with
    | nil => simp [zip3]
    | cons y ys =>
      cases c with
      | nil => simp [zip3]
      | cons z zs =>
        simp only [zip3, List.length_cons, ih]
        omega

theorem pySplitWs_getLast?_ne_empty {s j : String}
    (h : (pySplitWs s).getLast? = some j) : j ≠ "" := by
  have hmem := List.mem_of_getLast?_eq_some h
  have := (List.mem_filter.mp hmem).2
  simpa using this

theorem scan_fold_ne_empty (lines : List String) :
    ∀ (acc : Option String), (∀ j, acc = some j → j ≠ "") →
      ∀ j,
        lines.foldl
          (fun acc line =>
            if pyIn "Submitted batch job" line then
              (pySplitWs (pyStrip line)).getLast?
            else acc) acc = some j →
        j ≠ "" := by
  induction lines with
  | nil => intro acc hacc j h; exact hacc j h
  | cons l ls ih =>
    intro acc hacc j h
    simp only [List.foldl_cons] at h
    refine ih _ ?_ j h
    intro j' hj'
    cases hc : pyIn "Submitted batch job" l with
    | true => rw [hc] at hj'; simp at hj'; exact pySplitWs_getLast?_ne_empty hj'
    | false => rw [hc] at hj'; simp at hj'; exact hacc j' hj'

theorem extract_job_id_ne_empty {out j : String}
    (h : extract_job_id out = some j) : j ≠ "" :=
  scan_fold_ne_empty (pySplitlines out) none (by intro j hj; cases hj) j h

theorem shlexSafe_digitChar {m : Nat} (h : m < 10) :
    shlexSafe (Nat.digitChar m) = true := by
  interval_cases m <;> decide

theorem toDigitsCore_safe (fuel : Nat) :
    ∀ (n : Nat) (ds : List Char), ds.all shlexSafe = true →
      (Nat.toDigitsCore 10 fuel n ds).all shlexSafe = true := by
  induction fuel with
  | zero => intro n ds h; simpa [Nat.toDigitsCore] using h
  | succ fuel ih =>
    intro n ds h
    have hd : shlexSafe (Nat.digitChar (n % 10)) = true :=
      shlexSafe_digitChar (Nat.mod_lt _ (by omega))
    by_cases h10 : n / 10 = 0
    · simp [Nat.toDigitsCore, h10, List.all_cons, hd, h]
    · simp only [Nat.toDigitsCore, h10, if_false]
      exact ih _ _ (by simp [List.all_cons, hd, h])

theorem natRepr_safe (n : Nat) : (Nat.repr n).toList.all shlexSafe = true :=
  toDigitsCore_safe (n + 1) n [] rfl

theorem intToString_safe (n : Int) : (toString n).toList.all shlexSafe = true := by
  cases n with
  | ofNat m => exact natRepr_safe m
  | negSucc m =>
    show (("-" ++ Nat.repr (m + 1)).toList.all shlexSafe) = true
    have hdata : ("-" ++ Nat.repr (m + 1)).toList = '-' :: (Nat.repr (m + 1)).toList := rfl
    rw [hdata, List.all_cons, natRepr_safe]
    decide

theorem append_ne_empty_left {s t : String} (h : s ≠ "") : s ++ t ≠ "" := by
  intro hc
  apply h
  have hd := congrArg String.data hc
  rw [String.data_append] at hd
  exact String.ext (List.append_eq_nil.mp hd).1

theorem shlexQuote_of_safe {s : String} (h1 : s ≠ "")
    (h2 : s.toList.all shlexSafe = true) : shlexQuote s = s := by
  unfold shlexQuote
  rw [if_neg h1, if_pos h2]

theorem mem_dictUpdate_of_ne {d : List (String × PyVal)} {kv p : String × PyVal}
    (hp : p ∈ d) (hne : p.1 ≠ kv.1) : p ∈ dictUpdate d kv := by
  unfold dictUpdate
  split
  · exact List.mem_map.mpr ⟨p, hp, by simp [hne]⟩
  · exact List.mem_append_left _ hp

theorem mem_dictUpdateMany_of_not_key {upd : List (String × PyVal)} :
    ∀ {d : List (String × PyVal)} {p : String × PyVal},
      p ∈ d → p.1 ∉ upd.map Prod.fst → p ∈ dictUpdateMany d upd := by
  induction upd with
  | nil => intro d p hp _; exact hp
  | cons kv rest ih =>
    intro d p hp h
    simp only [List.map_cons, List.mem_cons, not_or] at h
    simp only [dictUpdateMany, List.foldl_cons]
    exact ih (mem_dictUpdate_of_ne hp h.1) h.2

theorem dictUpdate_not_mem_key {d : List (String × PyVal)} {kv : String × PyVal}
    (h : kv.1 ∉ d.map Prod.fst) : dictUpdate d kv = d ++ [kv] := by
  unfold dictUpdate
  rw [if_neg h]

theorem varsConf_keys (c : SlurmQueueConf) :
    (varsConf c).map Prod.fst =
      ["_target_", "partition", "job_name", "job_array_name", "nodes", "ntasks",
       "ntasks_per_node", "cpus_per_task", "mem", "time", "gres", "gpus",
       "account", "qos", "begin", "mail_type", "mail_user", "additional",
       "setup"] := rfl

theorem keys_filter_subset (d : List (String × PyVal)) (p : String × PyVal → Bool) :
    (d.filter p).map Prod.fst ⊆ d.map Prod.fst :=
  List.map_subset _ (List.filter_sublist _).subset

theorem additional_keys (c : SlurmQueueConf) :
    (c.additional.map (fun kv => (kv.1, PyVal.vStr kv.2))).map Prod.fst
      = c.additional.map Prod.fst := by
  simp [List.map_map]

theorem array_entry_mem_arrayParams (c : SlurmQueueConf) (array_size : Nat)
    (hadd : "array" ∉ c.additional.map Prod.fst) :
    ("array", PyVal.vStr ("0-" ++ toString ((array_size : Int) - 1))) ∈
      arrayParams c array_size := by
  have hkey : "array" ∉
      ((varsConf c).filter (fun kv => pyIsNotNone kv.2 &&
        decide (kv.1 ∉ ["additional", "setup", "_target_", "job_name",
          "job_array_name"]))).map Prod.fst := by
    intro hmem
    have := keys_filter_subset _ _ hmem
    rw [varsConf_keys] at this
    simp at this
  have base :
      ("array", PyVal.vStr ("0-" ++ toString ((array_size : Int) - 1))) ∈
        dictUpdateMany
          ((varsConf c).filter (fun kv => pyIsNotNone kv.2 &&
            decide (kv.1 ∉ ["additional", "setup", "_target_", "job_name",
              "job_array_name"])))
          [("array", PyVal.vStr ("0-" ++ toString ((array_size : Int) - 1)))] := by
    simp only [dictUpdateMany, List.foldl_cons, List.foldl_nil]
    rw [dictUpdate_not_mem_key hkey]
    exact List.mem_append_right _ (List.mem_singleton.mpr rfl)
  simp only [arrayParams]
  by_cases hA : c.additional = []
  · rw [if_neg (by simp [hA])]
    exact base
  · rw [if_pos hA]
    refine mem_dictUpdateMany_of_not_key base ?_
    rw [additional_keys]
    exact hadd

theorem toDigitsCore_ne_nil (fuel : Nat) :
    ∀ (n : Nat) (ds : List Char), ds ≠ [] → Nat.toDigitsCore 10 fuel n ds ≠ [] := by
  induction fuel with
  | zero => intro n ds h; simpa [Nat.toDigitsCore] using h
  | succ fuel ih =>
    intro n ds h
    by_cases h10 : n / 10 = 0
    · simp [Nat.toDigitsCore, h10]
    · simp only [Nat.toDigitsCore, h10, if_false]
      exact ih _ _ (by simp)

theorem natRepr_ne_empty (n : Nat) : Nat.repr n ≠ "" := by
  intro h
  have hd : Nat.toDigitsCore 10 (n + 1) n [] = [] := congrArg String.data h
  revert hd
  by_cases h10 : n / 10 = 0
  · simp [Nat.toDigitsCore, h10]
  · simp only [Nat.toDigitsCore, h10, if_false]
    exact toDigitsCore_ne_nil n (n / 10) [Nat.digitChar (n % 10)] (by simp)

theorem intToString_ne_empty (n : Int) : toString n ≠ "" := by
  cases n with
  | ofNat m => exact natRepr_ne_empty m
  | negSucc m =>
    show ("-" ++ Nat.repr (m + 1)) ≠ ""
    exact append_ne_empty_left (by decide)

theorem strAppend_assoc (a b c : String) : a ++ b ++ c = a ++ (b ++ c) :=
  String.ext (by simp [String.data_append])

theorem gpus_entry_mem_arrayParams (c : SlurmQueueConf) (n : Int)
    (array_size : Nat) (hg : c.gpus = some n)
    (hadd : "gpus" ∉ c.additional.map Prod.fst) :
    ("gpus", PyVal.vInt n) ∈ arrayParams c array_size := by
  have hmem : ("gpus", PyVal.vInt n) ∈ varsConf c := by
    simp [varsConf, hg, optInt]
  have hfil : ("gpus", PyVal.vInt n) ∈
      (varsConf c).filter (fun kv => pyIsNotNone kv.2 &&
        decide (kv.1 ∉ ["additional", "setup", "_target_", "job_name",
          "job_array_name"])) :=
    List.mem_filter.mpr ⟨hmem, by simp [pyIsNotNone]⟩
  have h1 : ("gpus", PyVal.vInt n) ∈
      dictUpdateMany
        ((varsConf c).filter (fun kv => pyIsNotNone kv.2 &&
          decide (kv.1 ∉ ["additional", "setup", "_target_", "job_name",
            "job_array_name"])))
        [("array", PyVal.vStr ("0-" ++ toString ((array_size : Int) - 1)))] :=
    mem_dictUpdateMany_of_not_key hfil (by simp)
  simp only [arrayParams]
  by_cases hA : c.additional = []
  · rw [if_neg (by simp [hA])]
    exact h1
  · rw [if_pos hA]
    refine mem_dictUpdateMany_of_not_key h1 ?_
    rw [additional_keys]
    exact hadd

theorem sbatch_line_mem_array_script (c : SlurmQueueConf) (array_name : String)
    (array_size : Nat) (config_file sweep_dir argv0 : String)
    {kv : String × PyVal} (hkv : kv ∈ arrayParams c array_size)
    (hout : kv.1 ≠ "output") (herr : kv.1 ≠ "error") :
    as_sbatch_flag kv.1 kv.2 ∈
      (generate_array_script c array_name array_size config_file sweep_dir
        argv0).1 := by
  have hdir : as_sbatch_flag kv.1 kv.2 ∈
      ((arrayParams c array_size).filter
        (fun kv => decide (kv.1 ∉ ["output", "error"]))).map
        (fun kv => as_sbatch_flag kv.1 kv.2) :=
    List.mem_map.mpr ⟨kv, List.mem_filter.mpr ⟨hkv, by simp [hout, herr]⟩, rfl⟩
  simp only [generate_array_script]
  by_cases hs : c.setup = [] <;>
    simp only [hs, if_pos, if_neg, ne_eq, not_true_eq_false, not_false_eq_true,
      ite_true, ite_false, List.mem_append] <;>
    tauto

theorem devnull_mem_array_script (c : SlurmQueueConf) (array_name : String)
    (array_size : Nat) (config_file sweep_dir argv0 : String) :
    "#SBATCH --output=/dev/null" ∈
      (generate_array_script c array_name array_size config_file sweep_dir
        argv0).1 ∧
    "#SBATCH --error=/dev/null" ∈
      (generate_array_script c array_name array_size config_file sweep_dir
        argv0).1 := by
  constructor <;>
  · simp only [generate_array_script]
    by_cases hs : c.setup = [] <;> simp [hs, List.mem_append]

theorem gpus_flag_mem_array_script (cc : SlurmQueueConf) (n : Int)
    (hg : cc.gpus = some n) (hadd : "gpus" ∉ cc.additional.map Prod.fst)
    (array_name : String) (array_size : Nat)
    (config_file sweep_dir argv0 : String) :
    ("#SBATCH --gpus=" ++ toString n) ∈
      (generate_array_script cc array_name array_size config_file sweep_dir
        argv0).1 := by
  have hmem := gpus_entry_mem_arrayParams cc n array_size hg hadd
  have hline := sbatch_line_mem_array_script cc array_name array_size
    config_file sweep_dir argv0 hmem (by simp) (by simp)
  have hflag : as_sbatch_flag "gpus" (PyVal.vInt n)
      = "#SBATCH --gpus=" ++ toString n := by
    unfold as_sbatch_flag
    simp only [pyStr]
    rw [shlexQuote_of_safe (intToString_ne_empty n) (intToString_safe n)]
    rfl
  rw [hflag] at hline
  exact hline

/-! ### Evaluation of the dispatch boundary -/

/-- When the `sbatch` process ran, `submit_job_array`'s returned value:
exit 0 expands the single acknowledgment into COMPLETED records with
derived ids; any non-zero exit raises `CalledProcessError`, which the
`except` clause converts into the all-FAILED expansion. -/
theorem submit_job_array_ran (config : SlurmQueueConf)
    (all_overrides : List (List String)) (job_names output_dirs : List String)
    (sweep_dir argv0 : String) (rc : Int) (out : String) :
    (submit_job_array config all_overrides job_names output_dirs sweep_dir
        argv0 (RunResult.ran rc out)).result =
      if rc = 0 then
        Except.ok ((List.range all_overrides.length).map (fun i =>
          { status := JobStatus.COMPLETED,
            returnValue := some (match extract_job_id out with
              | some j => if j = "" then none else some (j ++ "_" ++ toString i)
              | none => none) }))
      else
        Except.ok (List.replicate all_overrides.length
          { status := JobStatus.FAILED, returnValue := none }) := by
  by_cases hrc : rc = 0 <;>
    simp [submit_job_array, subprocess_run_check, hrc]

/-- When the `sbatch` binary is absent, the `FileNotFoundError` is not
caught by the `except subprocess.CalledProcessError` clause and
propagates out of `submit_job_array`. -/
theorem submit_job_array_notFound (config : SlurmQueueConf)
    (all_overrides : List (List String)) (job_names output_dirs : List String)
    (sweep_dir argv0 : String) :
    (submit_job_array config all_overrides job_names output_dirs sweep_dir
        argv0 RunResult.notFound).result =
      Except.error ProcError.fileNotFoundError := rfl

/-- `submit_job` at a completed `sbatch` process: with `check=True`, a
non-zero exit raises before the `returncode` test, so the FAILED branch
of the source is unreachable and the call either returns a COMPLETED
record or propagates `CalledProcessError`. -/
theorem submit_job_ran (config : SlurmQueueConf) (overrides : List String)
    (job_name output_dir argv0 : String) (rc : Int) (out : String) :
    submit_job config overrides job_name output_dir argv0
        (RunResult.ran rc out) =
      if rc = 0 then
        Except.ok { status := JobStatus.COMPLETED,
                    returnValue := (match extract_job_id out with
                      | some j => if j = "" then none else some (some j)
                      | none => none) }
      else Except.error ProcError.calledProcessError := by
  by_cases hrc : rc = 0 <;>
    simp [submit_job, subprocess_run_check, hrc]

/-! ### The claims -/

/-- C1: for every valid batch of N tasks (N override lists, N job
names, N output dirs), `submit_job_array` returns exactly N result
records, in input order, whether the scheduler submission succeeds
(exit 0) or fails (non-zero exit). -/
theorem C1_one_record_per_task (config : SlurmQueueConf)
    (all_overrides : List (List String)) (job_names output_dirs : List String)
    (sweep_dir argv0 : String) (rc : Int) (out : String)
    (hjn : job_names.length = all_overrides.length)
    (hod : output_dirs.length = all_overrides.length) :
    ∃ rs,
      (submit_job_array config all_overrides job_names output_dirs sweep_dir
          argv0 (RunResult.ran rc out)).result = Except.ok rs ∧
      rs.length = all_overrides.length := by
  rw [submit_job_array_ran]
  by_cases hrc : rc = 0
  · rw [if_pos hrc]
    exact ⟨_, rfl, by simp⟩
  · rw [if_neg hrc]
    exact ⟨_, rfl, by simp⟩

theorem C1_witness :
    ∃ rs,
      (submit_job_array confArr [["a=1"], ["a=2"]] ["j0", "j1"] ["d0", "d1"]
          "sw" "app.py" (RunResult.ran 0 "Submitted batch job 555")).result
        = Except.ok rs ∧
      rs.length = 2 :=
  C1_one_record_per_task confArr [["a=1"], ["a=2"]] ["j0", "j1"] ["d0", "d1"]
    "sw" "app.py" 0 "Submitted batch job 555" (by decide) (by decide)

/-- C2: when the array submission succeeds and a job id `J` is
extracted from the scheduler acknowledgment, the i-th result record is
COMPLETED with the derived id `"J_i"`; when no job id is extracted,
every result is COMPLETED with no id. -/
theorem C2_derived_ids (config : SlurmQueueConf)
    (all_overrides : List (List String)) (job_names output_dirs : List String)
    (sweep_dir argv0 out : String) (i : Nat)
    (hi : i < all_overrides.length) :
    ∃ rs,
      (submit_job_array config all_overrides job_names output_dirs sweep_dir
          argv0 (RunResult.ran 0 out)).result = Except.ok rs ∧
      rs.length = all_overrides.length ∧
      ∀ (hi' : i < rs.length),
        (rs.get ⟨i, hi'⟩).status = JobStatus.COMPLETED ∧
        (rs.get ⟨i, hi'⟩).returnValue =
          (match extract_job_id out with
            | some j => some (some (j ++ "_" ++ toString i))
            | none => some none) := by
  rw [submit_job_array_ran, if_pos rfl]
  refine ⟨_, rfl, by simp, ?_⟩
  intro hi'
  simp only [List.get_eq_getElem, List.getElem_map, List.getElem_range]
  cases hJ : extract_job_id out with
  | none => simp
  | some j =>
    have hne : j ≠ "" := extract_job_id_ne_empty hJ
    simp [hne]

theorem C2_witness :
    ∃ rs,
      (submit_job_array confArr [["a=1"], ["a=2"], ["a=3"]] ["j0", "j1", "j2"]
          ["d0", "d1", "d2"] "sw" "app.py"
          (RunResult.ran 0 "Submitted batch job 555")).result = Except.ok rs ∧
      rs.length = 3 ∧
      ∀ (hi' : 1 < rs.length),
        (rs.get ⟨1, hi'⟩).status = JobStatus.COMPLETED ∧
        (rs.get ⟨1, hi'⟩).returnValue =
          (match extract_job_id "Submitted batch job 555" with
            | some j => some (some (j ++ "_" ++ toString 1))
            | none => some none) :=
  C2_derived_ids confArr [["a=1"], ["a=2"], ["a=3"]] ["j0", "j1", "j2"]
    ["d0", "d1", "d2"] "sw" "app.py" "Submitted batch job 555" 1 (by decide)

/-- C3 (counterexample): when the scheduler binary is absent, the
`FileNotFoundError` raised by the process invocation is not caught by
`submit_job_array` — it propagates to the caller instead of being
converted into FAILED result records, contradicting the claim that any
process-invocation exception is caught inside `submit_job_array`. -/
theorem C3_counterexample :
    (submit_job_array confArr [["a=1"]] ["j0"] ["d0"] "sw" "app.py"
        RunResult.notFound).result
      = Except.error ProcError.fileNotFoundError := rfl

/-- C3 (amended): an exception of type `CalledProcessError` (non-zero
exit under `check=True`) is caught inside `submit_job_array` and
converted into N FAILED result records with no id; but an exception of
a different type, such as `FileNotFoundError` when the scheduler binary
is absent, propagates to the caller.  (No timeout is passed to
`subprocess.run`, so a timeout exception cannot arise.) -/
theorem C3_amended_only_cpe_caught (config : SlurmQueueConf)
    (all_overrides : List (List String)) (job_names output_dirs : List String)
    (sweep_dir argv0 out : String) (rc : Int) (hrc : rc ≠ 0) :
    (submit_job_array config all_overrides job_names output_dirs sweep_dir
        argv0 (RunResult.ran rc out)).result
      = Except.ok (List.replicate all_overrides.length
          { status := JobStatus.FAILED, returnValue := none })
    ∧ (submit_job_array config all_overrides job_names output_dirs sweep_dir
        argv0 RunResult.notFound).result
      = Except.error ProcError.fileNotFoundError := by
  constructor
  · rw [submit_job_array_ran, if_neg hrc]
  · exact submit_job_array_notFound config all_overrides job_names output_dirs
      sweep_dir argv0

theorem C3_witness :
    (submit_job_array confArr [["a=1"], ["a=2"]] ["j0", "j1"] ["d0", "d1"]
        "sw" "app.py" (RunResult.ran 1 "")).result
      = Except.ok (List.replicate 2
          { status := JobStatus.FAILED, returnValue := none })
    ∧ (submit_job_array confArr [["a=1"], ["a=2"]] ["j0", "j1"] ["d0", "d1"]
        "sw" "app.py" RunResult.notFound).result
      = Except.error ProcError.fileNotFoundError :=
  C3_amended_only_cpe_caught confArr [["a=1"], ["a=2"]] ["j0", "j1"]
    ["d0", "d1"] "sw" "app.py" "" 1 (by decide)

/-- C4 (code bug): the claim says that on a non-zero exit of the
scheduler submit command, `submit_job` returns a FAILED outcome.  In
the source, `subprocess.run(..., check=True)` raises
`CalledProcessError` on a non-zero exit before the `returncode` test,
so the exception propagates and the source's own
`ret.status = JobStatus.FAILED` branch is unreachable: `submit_job`
never returns a FAILED outcome. -/
theorem C4_nonzero_exit_raises :
    submit_job confDefault ["a=1"] "j0" "d0" "app.py" (RunResult.ran 1 "")
      = Except.error ProcError.calledProcessError
    ∧ ∀ (config : SlurmQueueConf) (overrides : List String)
        (job_name output_dir argv0 : String) (r : RunResult) (jr : JobReturn),
        submit_job config overrides job_name output_dir argv0 r
            = Except.ok jr →
        jr.status ≠ JobStatus.FAILED := by
  constructor
  · rfl
  · intro config overrides job_name output_dir argv0 r jr h
    cases r with
    | notFound => exact Except.noConfusion h
    | ran rc out =>
      rw [submit_job_ran] at h
      by_cases hrc : rc = 0
      · rw [if_pos hrc] at h
        cases h
        intro hc
        cases hc
      · rw [if_neg hrc] at h
        exact Except.noConfusion h

theorem C4_witness :
    ∃ jr,
      submit_job confDefault ["a=1"] "j0" "d0" "app.py" (RunResult.ran 0 "")
          = Except.ok jr
        ∧ jr.status ≠ JobStatus.FAILED :=
  ⟨{ status := JobStatus.COMPLETED, returnValue := none }, rfl,
    C4_nonzero_exit_raises.2 confDefault ["a=1"] "j0" "d0" "app.py"
      (RunResult.ran 0 "") _ rfl⟩

/-- C5: a `SlurmQueueConf` with both `job_name` and `job_array_name`
set, or with both `gpus` and `gres` set, is rejected by
`__post_init__` with a `ValueError` at construction time — before any
script-generation function can be reached — so such a spec is never
accepted. -/
theorem C5_exclusive_constraints_reject (c : SlurmQueueConf)
    (h : (c.job_name.isSome ∧ c.job_array_name.isSome)
        ∨ (c.gpus.isSome ∧ c.gres.isSome)) :
    ∃ msg, post_init c = Except.error msg := by
  unfold post_init
  rcases h with ⟨h1, h2⟩ | h
  · by_cases hg : c.gpus.isSome ∧ c.gres.isSome
    · rw [if_pos hg]
      exact ⟨_, rfl⟩
    · rw [if_neg hg]
      cases hgp : c.gpus with
      | none =>
        simp only
        rw [if_pos ⟨h1, h2⟩]
        exact ⟨_, rfl⟩
      | some n =>
        simp only
        rw [if_pos ⟨h1, h2⟩]
        exact ⟨_, rfl⟩
  · rw [if_pos h]
    exact ⟨_, rfl⟩

theorem C5_witness :
    (∃ msg, post_init { job_name := some "a", job_array_name := some "b" }
        = Except.error msg)
    ∧ (∃ msg, post_init { gpus := some 2, gres := some "gpu:4" }
        = Except.error msg) :=
  ⟨C5_exclusive_constraints_reject _ (Or.inl (by decide)),
   C5_exclusive_constraints_reject _ (Or.inr (by decide))⟩

/-- C6 (counterexample): a config constructed with `gpus = 2` is
accepted by `post_init`, which expands it into `gres = "gpu:2"`, yet
the generated array script still contains the directive line
`#SBATCH --gpus=2` — the `gpus` key IS emitted, contradicting the
claim that it never is. -/
theorem C6_counterexample :
    ∃ c2,
      post_init { job_array_name := some "arr", gpus := some 2 }
          = Except.ok c2
      ∧ "#SBATCH --gpus=2" ∈
          (generate_array_script c2 "arr" 3 "sw/arr_array_config.json" "sw"
            "app.py").1 := by
  refine ⟨_, rfl, ?_⟩
  decide

/-- C6 (amended): if `gpus = n` is present, construction expands it
into `gres = "gpu:<n>"` before any script is rendered; however the
`gpus` key is NOT suppressed: it remains set on the accepted config
and is itself emitted as a `--gpus=<n>` directive line in the
generated array script (whenever `additional` does not override the
`gpus` key). -/
theorem C6_amended_gpus_expanded_but_emitted (c c2 : SlurmQueueConf) (n : Int)
    (hg : c.gpus = some n) (hok : post_init c = Except.ok c2)
    (hadd : "gpus" ∉ c2.additional.map Prod.fst)
    (array_name : String) (array_size : Nat)
    (config_file sweep_dir argv0 : String) :
    c2.gres = some ("gpu:" ++ toString n)
    ∧ c2.gpus = some n
    ∧ ("#SBATCH --gpus=" ++ toString n) ∈
        (generate_array_script c2 array_name array_size config_file sweep_dir
          argv0).1 := by
  unfold post_init at hok
  split at hok
  · exact Except.noConfusion hok
  · simp only [hg] at hok
    split at hok
    · exact Except.noConfusion hok
    · injection hok with h2
      subst h2
      exact ⟨rfl, rfl,
        gpus_flag_mem_array_script _ n rfl hadd array_name array_size
          config_file sweep_dir argv0⟩

theorem C6_witness :
    ∃ c2,
      post_init { job_array_name := some "arr", gpus := some 2 }
          = Except.ok c2
      ∧ (c2.gres = some ("gpu:" ++ toString (2 : Int))
         ∧ c2.gpus = some (2 : Int)
         ∧ ("#SBATCH --gpus=" ++ toString (2 : Int)) ∈
             (generate_array_script c2 "arrX" 5 "cf" "sw" "p").1) := by
  refine ⟨_, rfl, ?_⟩
  exact C6_amended_gpus_expanded_but_emitted
    { job_array_name := some "arr", gpus := some 2 } _ 2 rfl rfl (by decide)
    "arrX" 5 "cf" "sw" "p"

/-- C7: compiling a single-job script leaves the caller's shared
config unchanged: after `generate_slurm_script` returns, `job_name`
equals its pre-call value (it is restored after being temporarily set
for directive rendering) and no other field is modified. -/
theorem C7_config_restored (c : SlurmQueueConf)
    (job_name output_dir command : String) :
    (generate_slurm_script c job_name output_dir command).config = c := by
  obtain ⟨t, p, jn, jan, nd, nt, npn, cpt, mm, tm, gr, gp, ac, qs, bg, mt,
    mu, ad, st⟩ := c
  cases jn <;> rfl

/-- C8 (counterexample): a size-1 batch whose accepted config carries
`additional = [("array", "1-1")]` produces an array script with no
`#SBATCH --array=0-0` line — the user-supplied `additional` entry
silently replaces the computed range, contradicting the claim for
every batch. -/
theorem C8_counterexample :
    ∃ c2,
      post_init { job_array_name := some "arr",
                  additional := [("array", "1-1")] } = Except.ok c2
      ∧ "#SBATCH --array=0-0" ∉
          (generate_array_script c2 "arr" 1 "cf" "sw" "app.py").1 := by
  refine ⟨_, rfl, ?_⟩
  decide

/-- C8 (amended): for every array batch of size N ≥ 1 whose
`additional` mapping does not override the `array` key, the generated
array script's directive block sets the output and error directives to
`/dev/null` and contains the array directive with range `"0-<N-1>"`. -/
theorem C8_amended_devnull_and_range (config : SlurmQueueConf)
    (array_name : String) (array_size : Nat)
    (config_file sweep_dir argv0 : String)
    (hadd : "array" ∉ config.additional.map Prod.fst)
    (hN : 1 ≤ array_size) :
    "#SBATCH --output=/dev/null" ∈
      (generate_array_script config array_name array_size config_file
        sweep_dir argv0).1
    ∧ "#SBATCH --error=/dev/null" ∈
      (generate_array_script config array_name array_size config_file
        sweep_dir argv0).1
    ∧ ("#SBATCH --array=0-" ++ Nat.repr (array_size - 1)) ∈
      (generate_array_script config array_name array_size config_file
        sweep_dir argv0).1 := by
  obtain ⟨ho, he⟩ := devnull_mem_array_script config array_name array_size
    config_file sweep_dir argv0
  refine ⟨ho, he, ?_⟩
  have htos : toString ((array_size : Int) - 1) = Nat.repr (array_size - 1) := by
    have hfs : ((array_size : Int) - 1) = ((array_size - 1 : Nat) : Int) := by
      omega
    rw [hfs]
    rfl
  have hentry := array_entry_mem_arrayParams config array_size hadd
  rw [htos] at hentry
  have hline := sbatch_line_mem_array_script config array_name array_size
    config_file sweep_dir argv0 hentry (by simp) (by simp)
  have hq : shlexQuote ("0-" ++ Nat.repr (array_size - 1))
      = "0-" ++ Nat.repr (array_size - 1) := by
    apply shlexQuote_of_safe
    · exact append_ne_empty_left (by decide)
    · have hlist : ("0-" ++ Nat.repr (array_size - 1)).toList
          = '0' :: '-' :: (Nat.repr (array_size - 1)).toList := rfl
      rw [hlist, List.all_cons, List.all_cons, natRepr_safe]
      decide
  have hflag : as_sbatch_flag "array"
        (PyVal.vStr ("0-" ++ Nat.repr (array_size - 1)))
      = "#SBATCH --array=0-" ++ Nat.repr (array_size - 1) := by
    unfold as_sbatch_flag
    simp only [pyStr]
    rw [hq, ← strAppend_assoc]
    rfl
  rw [hflag] at hline
  exact hline

theorem C8_witness :
    "#SBATCH --output=/dev/null" ∈
      (generate_array_script confArr "arr" 3 "cf" "sw" "p").1
    ∧ "#SBATCH --error=/dev/null" ∈
      (generate_array_script confArr "arr" 3 "cf" "sw" "p").1
    ∧ ("#SBATCH --array=0-" ++ Nat.repr 2) ∈
      (generate_array_script confArr "arr" 3 "cf" "sw" "p").1 :=
  C8_amended_devnull_and_range confArr "arr" 3 "cf" "sw" "p" (by decide)
    (by decide)

/-- C9 (counterexample): a batch with 2 override lists but only 1 job
name and 1 output dir is not rejected: `submit_job_array` processes it,
records only `min`-many task descriptors (the `zip` truncates) and
still returns 2 result records, contradicting the claim that unequal
list lengths are validated and rejected. -/
theorem C9_counterexample :
    (submit_job_array confArr [["a=1"], ["a=2"]] ["j0"] ["d0"] "sw" "app.py"
        (RunResult.ran 0 "Submitted batch job 7")).result
      = Except.ok
          [{ status := JobStatus.COMPLETED, returnValue := some (some "7_0") },
           { status := JobStatus.COMPLETED, returnValue := some (some "7_1") }]
    ∧ (submit_job_array confArr [["a=1"], ["a=2"]] ["j0"] ["d0"] "sw" "app.py"
        (RunResult.ran 0 "Submitted batch job 7")).configData.length = 1 :=
  ⟨by decide, by decide⟩

/-- C9 (amended): `submit_job_array` performs no length validation at
all: the task descriptors are assembled from the element-wise `zip` of
the three lists (truncated to the shortest), and whenever the `sbatch`
process runs the engine returns `len(all_overrides)` result records,
even for mismatched batches. -/
theorem C9_amended_no_validation (config : SlurmQueueConf)
    (all_overrides : List (List String)) (job_names output_dirs : List String)
    (sweep_dir argv0 : String) (r : RunResult) :
    (submit_job_array config all_overrides job_names output_dirs sweep_dir
        argv0 r).configData.length
      = min all_overrides.length (min job_names.length output_dirs.length)
    ∧ ∀ (rc : Int) (out : String), ∃ rs,
        (submit_job_array config all_overrides job_names output_dirs sweep_dir
            argv0 (RunResult.ran rc out)).result = Except.ok rs ∧
        rs.length = all_overrides.length := by
  constructor
  · simp [submit_job_array, zip3_length]
  · intro rc out
    rw [submit_job_array_ran]
    by_cases hrc : rc = 0
    · rw [if_pos hrc]
      exact ⟨_, rfl, by simp⟩
    · rw [if_neg hrc]
      exact ⟨_, rfl, by simp⟩

/-- C10: `as_sbatch_flag` renders any boolean value as the bare
presence flag `#SBATCH --<key>` — a `False` value renders exactly like
a `True` one — and the `v is not None` filter used by the script
generators admits `False`; only `None` values are filtered out. -/
theorem C10_bool_flag_rendering (key : String) :
    as_sbatch_flag key (PyVal.vBool false)
        = as_sbatch_flag key (PyVal.vBool true)
    ∧ as_sbatch_flag key (PyVal.vBool false)
        = "#SBATCH --" ++ pyReplaceChar key '_' '-'
    ∧ pyIsNotNone (PyVal.vBool false) = true
    ∧ ∀ v : PyVal, pyIsNotNone v = false ↔ v = PyVal.vNone := by
  refine ⟨rfl, rfl, rfl, ?_⟩
  intro v
  cases v <;> simp [pyIsNotNone]

end SlurmModel
